import Mathlib

/-!
A shallow embedding of the Searchbase core (appbaseio/Searchbase, file
src/src/index.js) in Lean 4, used to check the natural-language
specification against the code.

JavaScript values are modeled by the inductive type JSVal. Numbers are
modeled by integers (every number appearing in the source and in the
claims is an integer); NaN is a separate constructor. Objects are
modeled as ordered association lists of (key, value) pairs; since the
lists we build by spreading may contain a key twice, property lookup
takes the LAST binding of a key, which matches the override semantics
of the JS object-spread operator. Fallible JS code (member access on
null or undefined, thrown constructor errors, rejected promises) is
modeled with Except JSVal.
-/

inductive JSVal where
  | null
  | undefined
  | bool (b : Bool)
  | num (n : Int)
  | nan
  | str (s : String)
  | obj (fields : List (String × JSVal))
  | arr (elems : List JSVal)

/-- JS truthiness: undefined, null, false, 0, NaN and the empty string are
falsy; every object and array is truthy. -/
def truthy : JSVal → Bool
  | .null => false
  | .undefined => false
  | .bool b => b
  | .num n => n != 0
  | .nan => false
  | .str s => s != ""
  | .obj _ => true
  | .arr _ => true

/-- The JS expression a || b : the first operand if truthy, else the second. -/
def jsOr (a b : JSVal) : JSVal := if truthy a then a else b

def isUndef : JSVal → Bool
  | .undefined => true
  | _ => false

/-- Strict equality of a JS value with a given string literal (v === "lit"). -/
def isStrEq (v : JSVal) (lit : String) : Bool :=
  match v with
  | .str s => s == lit
  | _ => false

/-- typeof v === "object" (true for objects, arrays and null). -/
def jsTypeofIsObject : JSVal → Bool
  | .obj _ => true
  | .arr _ => true
  | .null => true
  | _ => false

/-- Property lookup in an association list; the LAST binding of the key wins,
matching the override behaviour of later entries produced by object spread. -/
def jsLookupF : List (String × JSVal) → String → Option JSVal
  | [], _ => none
  | p :: rest, k =>
    match jsLookupF rest k with
    | some v => some v
    | none => if p.1 == k then some p.2 else none

/-- Property lookup on a JS value: only objects carry properties here. -/
def jsLookup (v : JSVal) (k : String) : Option JSVal :=
  match v with
  | .obj l => jsLookupF l k
  | _ => none

/-- The own enumerable properties contributed by the spread operator
(...v): an object contributes its fields, an array and a string
contribute their indexed elements, every other value contributes nothing. -/
def jsSpreadFields : JSVal → List (String × JSVal)
  | .obj l => l
  | .arr l => (l.enum.map (fun p => (toString p.1, p.2)))
  | .str s => (s.toList.enum.map (fun p => (toString p.1, JSVal.str (String.singleton p.2))))
  | _ => []

/-- Rest destructuring const (brace k, ...rest brace) = v : the spread fields of v
with the named key removed. -/
def jsRestFields (v : JSVal) (k : String) : List (String × JSVal) :=
  (jsSpreadFields v).filter (fun p => p.1 != k)

/-- Member access v.k on a receiver that is known not to be null or
undefined (the call sites guard with v || default). Objects look the key
up, primitives and arrays yield undefined for the keys used by the source. -/
def jsMemberD (v : JSVal) (k : String) : JSVal :=
  match v with
  | .obj l => (jsLookupF l k).getD .undefined
  | _ => .undefined

/-- A thrown JS Error / TypeError value: modeled as an object carrying the
message. -/
def jsError (msg : String) : JSVal := .obj [("message", .str msg)]

/-- Member access v.k in the general case: throws a TypeError when the
receiver is null or undefined, as JS does. -/
def jsMemberE (v : JSVal) (k : String) : Except JSVal JSVal :=
  match v with
  | .null => .error (jsError "TypeError")
  | .undefined => .error (jsError "TypeError")
  | .obj l => .ok ((jsLookupF l k).getD .undefined)
  | _ => .ok .undefined

/-- Array index access v[i]: an out of range index yields undefined, a
non-array receiver yields undefined (JS returns undefined for a missing
index property on a boxed primitive as well; string indexing yields the
character). -/
def jsIndex (v : JSVal) (i : Nat) : JSVal :=
  match v with
  | .arr l => l.getD i .undefined
  | .str s => match s.toList.get? i with
    | some c => .str (String.singleton c)
    | none => .undefined
  | _ => .undefined

/-- Object.prototype.hasOwnProperty.call(v, k). -/
def jsHasOwn (v : JSVal) (k : String) : Bool :=
  match v with
  | .obj l => l.any (fun p => p.1 == k)
  | _ => false

def isNumber : JSVal → Bool
  | .num _ => true
  | .nan => true
  | _ => false

/-- The JS ToString coercion, for the values the source coerces (template
strings and computed object keys). Arrays render their elements joined by
commas with null and undefined rendered empty, as Array.prototype.toString
does. -/
def jsToString : JSVal → String
  | .null => "null"
  | .undefined => "undefined"
  | .bool b => if b then "true" else "false"
  | .num n => toString n
  | .nan => "NaN"
  | .str s => s
  | .obj _ => "[object Object]"
  | .arr l => jsToStringList l
where
  jsToStringList : List JSVal → String
    | [] => ""
    | v :: rest =>
      (match v with
       | .null => ""
       | .undefined => ""
       | w => jsToString w)
      ++ (if rest.isEmpty then "" else ",") ++ jsToStringList rest

/-- The Number() coercion. String parsing is modeled for the integer
literals that actually occur; a non-numeric string coerces to NaN. A plain
object coerces to NaN; an empty array to 0, a singleton array like its
element, a longer array to NaN. -/
def toNumber : JSVal → JSVal
  | .undefined => .nan
  | .null => .num 0
  | .bool b => .num (if b then 1 else 0)
  | .num n => .num n
  | .nan => .nan
  | .str s => if s == "" then .num 0 else
      match s.toInt? with
      | some n => .num n
      | none => .nan
  | .obj _ => .nan
  | .arr [] => .num 0
  | .arr [x] => toNumber x
  | .arr (_ :: _ :: _) => .nan

/-- Quotes and minimally escapes a string for JSON output. -/
def jsonQuote (s : String) : String :=
  "\"" ++ String.join (s.toList.map (fun c =>
    if c == '"' then "\\\"" else if c == '\\' then "\\\\" else String.singleton c)) ++ "\""

/-- JSON.stringify: returns none for undefined (stringify yields no string
there); undefined-valued object keys are omitted and undefined array
elements render as null. Comma placement in the object case is approximate
when omitted keys are followed by kept keys; no claim depends on the
serialized body. -/
def jsStringifyQ : JSVal → Option String
  | .undefined => none
  | .null => some "null"
  | .nan => some "null"
  | .bool b => some (if b then "true" else "false")
  | .num n => some (toString n)
  | .str s => some (jsonQuote s)
  | .arr l => some ("[" ++ jsStringifyArr l ++ "]")
  | .obj fs => some ("\x7b" ++ jsStringifyFields fs ++ "\x7d")
where
  jsStringifyArr : List JSVal → String
    | [] => ""
    | v :: rest =>
      ((jsStringifyQ v).getD "null") ++ (if rest.isEmpty then "" else ",") ++ jsStringifyArr rest
  jsStringifyFields : List (String × JSVal) → String
    | [] => ""
    | (k, v) :: rest =>
      match jsStringifyQ v with
      | none => jsStringifyFields rest
      | some sv => jsonQuote k ++ ":" ++ sv ++ (if rest.isEmpty then "" else ",") ++ jsStringifyFields rest

/-- JSON.stringify as used for a request body (an undefined body is passed
through to fetch as undefined). -/
def jsStringifyVal (v : JSVal) : JSVal :=
  match jsStringifyQ v with
  | some s => .str s
  | none => .undefined

def b64Alphabet : List Char :=
  "ABCDEFGHIJKLMNOPQRSTUVWXYZabcdefghijklmnopqrstuvwxyz0123456789+/".toList

def b64Char (n : Nat) : Char := b64Alphabet.getD n 'A'

/-- Base64 of a list of byte values, three input bytes to four output
characters, with = padding. -/
def b64Encode : List Nat → String
  | [] => ""
  | [a] => String.mk [b64Char (a / 4), b64Char (a % 4 * 16)] ++ "=="
  | [a, b] => String.mk [b64Char (a / 4), b64Char (a % 4 * 16 + b / 16), b64Char (b % 16 * 4)] ++ "="
  | a :: b :: c :: rest =>
    String.mk [b64Char (a / 4), b64Char (a % 4 * 16 + b / 16),
               b64Char (b % 16 * 4 + c / 64), b64Char (c % 64)] ++ b64Encode rest

/-- The btoa builtin, applied to the character codes of the string. -/
def btoa (s : String) : String := b64Encode (s.toList.map Char.toNat)

/-! ## QueryBuilder: the static functions of the Searchbase class -/

/-- The options record passed to Searchbase.defaultQuery and
Searchbase.shouldQuery (source lines 799 to 805). -/
structure DQOptions where
  dataField : JSVal
  searchOperators : JSVal
  queryFormat : JSVal
  fuzziness : JSVal
  nestedField : JSVal

def isEmptyStr (v : JSVal) : Bool := isStrEq v ""

/-- Searchbase.shouldQuery (source lines 946 to 1012): normalizes the field
specs (an object spec renders as "field^weight" with the weight part
dropped when falsy, a plain entry passes through), then emits either one
operator query descriptor, or two AND clauses, or two OR clauses. -/
def shouldQuery (value : JSVal) (dataFields : List JSVal) (o : DQOptions) :
    Except JSVal JSVal := do
  let fields ← dataFields.mapM (fun df =>
    if jsTypeofIsObject df then do
      let f ← jsMemberE df "field"
      let w ← jsMemberE df "weight"
      pure (JSVal.str (jsToString f ++ (if truthy w then "^" ++ jsToString w else "")))
    else pure df)
  if truthy o.searchOperators then
    pure (JSVal.obj [("query", value), ("fields", .arr fields),
                     ("default_operator", o.queryFormat)])
  else if isStrEq o.queryFormat "and" then
    pure (JSVal.arr [
      .obj [("multi_match", .obj [("query", value), ("fields", .arr fields),
            ("type", .str "cross_fields"), ("operator", .str "and")])],
      .obj [("multi_match", .obj [("query", value), ("fields", .arr fields),
            ("type", .str "phrase_prefix"), ("operator", .str "and")])]])
  else
    pure (JSVal.arr [
      .obj [("multi_match", .obj [("query", value), ("fields", .arr fields),
            ("type", .str "best_fields"), ("operator", .str "or"),
            ("fuzziness", o.fuzziness)])],
      .obj [("multi_match", .obj [("query", value), ("fields", .arr fields),
            ("type", .str "phrase_prefix"), ("operator", .str "or")])]])

def matchAllQuery : JSVal := .obj [("match_all", .obj [])]

/-- Searchbase.defaultQuery (source lines 904 to 943). finalQuery starts
null; a truthy value builds the operator or bool/should form over the
field list; a strictly empty string resets to null; a truthy result with a
nested field gets wrapped in a nested path query. -/
def defaultQuery (value : JSVal) (o : DQOptions) : Except JSVal JSVal := do
  let fq1 ← (if truthy value then
      (let fields := match o.dataField with
        | .arr l => l
        | df => [df]
      if truthy o.searchOperators then do
        let sq ← shouldQuery value fields o
        pure (JSVal.obj [("simple_query_string", sq)])
      else do
        let sq ← shouldQuery value fields o
        pure (JSVal.obj [("bool", JSVal.obj [("should", sq),
              ("minimum_should_match", .str "1")])]))
    else pure JSVal.null)
  let fq2 := if isEmptyStr value then JSVal.null else fq1
  if truthy fq2 && truthy o.nestedField then
    pure (JSVal.obj [("nested", JSVal.obj [("path", o.nestedField), ("query", fq2)])])
  else
    pure fq2

/-- The options record of Searchbase.generateQueryOptions. The source field
named from is spelled fromV here (from is a Lean keyword). -/
structure GQOptions where
  size : JSVal
  fromV : JSVal
  includeFields : JSVal
  excludeFields : JSVal
  sortOptions : JSVal
  sortBy : JSVal
  sortByField : JSVal

/-- The sort part of Searchbase.generateQueryOptions (source lines 1034 to
1050): a truthy sortOptions list contributes one clause built from entry 0
(accessing entry 0 of an empty or non-array value throws as in JS); else a
truthy sortBy and sortByField pair contributes one clause; else no sort. -/
def sortClause (o : GQOptions) : Except JSVal (Option JSVal) :=
  if truthy o.sortOptions then do
    let first := jsIndex o.sortOptions 0
    let df ← jsMemberE first "dataField"
    let sb ← jsMemberE first "sortBy"
    pure (some (JSVal.arr [.obj [(jsToString df, JSVal.obj [("order", sb)])]]))
  else if truthy o.sortBy && truthy o.sortByField then
    pure (some (JSVal.arr [.obj [(jsToString o.sortByField,
      JSVal.obj [("order", o.sortBy)])]]))
  else pure none

/-- Searchbase.generateQueryOptions (source lines 1015 to 1052): assembles
size, from, a _source projection when include or exclude fields are
truthy, and the sort clause, in source insertion order. -/
def generateQueryOptions (o : GQOptions) : Except JSVal JSVal := do
  let sc ← sortClause o
  pure (JSVal.obj (
    (if !(isUndef o.size) then [("size", o.size)] else [])
    ++ (if !(isUndef o.fromV) then [("from", o.fromV)] else [])
    ++ (if truthy o.includeFields || truthy o.excludeFields then
          [("_source", JSVal.obj (
            (if truthy o.includeFields then [("includes", o.includeFields)] else [])
            ++ (if truthy o.excludeFields then [("excludes", o.excludeFields)] else [])))]
        else [])
    ++ (match sc with | some v => [("sort", v)] | none => [])))

/-! ## Observable and ResultSet collaborators -/

/-- Modelled from the spec: observable.js is imported by the core but is
not under src. Spec section 4.1: subscribe registers a listener either for
all changes or for a filtered subset of named keys; next(changeMap, key)
invokes every listener whose subscription includes key or has no filter.
A subscription is identified here by a numeric listener id. -/
structure Subscription where
  id : Nat
  keys : Option (List String)
deriving DecidableEq

/-- Modelled from the spec: whether a subscription receives a change
published under the given key (no filter, or the key is in the filter). -/
def subMatches (sub : Subscription) (key : String) : Bool :=
  match sub.keys with
  | none => true
  | some ks => ks.contains key

/-- Modelled from the spec: the listeners invoked by next(changeMap, key),
in subscription order. -/
def notifyIds (subs : List Subscription) (key : String) : List Nat :=
  (subs.filter (fun sub => subMatches sub key)).map (fun sub => sub.id)

/-- Modelled from the spec: Results.js is imported by the core but is not
under src. Spec section 4.2: a ResultSet wraps a raw response; we model an
instance as an object holding the wrapped data under "raw". -/
def resultsMake (d : JSVal) : JSVal := .obj [("raw", d)]

/-- Modelled from the spec: setRaw(rawResponse) replaces the wrapped
response. -/
def resultsSetRaw (_r raw : JSVal) : JSVal := .obj [("raw", raw)]

/-! ## Core state, effects and option propagation -/

/-- The observable side effects of a state transition: the registered
change callbacks (error kinds receive only the previous value, as in
_applyOptions), an issued search request, a published state change
carrying the invoked listener ids and the change map, and a console
warning. -/
inductive Effect where
  | micStatusCb (prev next : JSVal)
  | valueCb (prev next : JSVal)
  | errorCb (prev : JSVal)
  | suggestionsErrorCb (prev : JSVal)
  | resultsCb (prev next : JSVal)
  | suggestionsCb (prev next : JSVal)
  | request (body : JSVal)
  | notify (ids : List Nat) (key : String) (changes : JSVal)
  | warn (msg : String) (arg : JSVal)

/-- The per-call options object of every setter (triggerQuery and
stateChanges both default true at the call sites that pass none). -/
structure Options where
  triggerQuery : Bool
  stateChanges : Bool

/-- The state of one Searchbase instance. Field names follow the source
(the field named from is spelled fromV; the leading-underscore private
fields keep their names). The Bool fields record whether the
corresponding function-valued property is configured; events records the
emitted side effects in order. -/
structure SBState where
  index : JSVal
  url : JSVal
  credentials : JSVal
  analytics : JSVal
  dataField : JSVal
  nestedField : JSVal
  updateOn : JSVal
  queryFormat : JSVal
  voiceSearch : JSVal
  fuzziness : JSVal
  searchOperators : JSVal
  size : JSVal
  fromV : JSVal
  sortBy : JSVal
  sortByField : JSVal
  includeFields : JSVal
  excludeFields : JSVal
  sortOptions : JSVal
  value : JSVal
  headers : JSVal
  results : JSVal
  suggestions : JSVal
  error : JSVal
  suggestionsError : JSVal
  _query : JSVal
  _suggestionsQuery : JSVal
  _searchId : JSVal
  transformRequest : Bool
  transformResponse : Bool
  beforeValueChange : Bool
  onValueChange : Bool
  onResults : Bool
  onSuggestions : Bool
  onError : Bool
  onSuggestionsError : Bool
  onMicStatusChange : Bool
  subscribers : List Subscription
  events : List Effect

/-- The constructor configuration object (source lines 200 to 227). The
function-valued entries are modeled by their presence. -/
structure Config where
  index : JSVal
  url : JSVal
  credentials : JSVal
  analytics : JSVal
  headers : JSVal
  value : JSVal
  query : JSVal
  suggestionsQuery : JSVal
  updateOn : JSVal
  suggestions : JSVal
  results : JSVal
  voiceSearch : JSVal
  fuzziness : JSVal
  searchOperators : JSVal
  queryFormat : JSVal
  size : JSVal
  fromV : JSVal
  dataField : JSVal
  includeFields : JSVal
  excludeFields : JSVal
  sortBy : JSVal
  nestedField : JSVal
  sortOptions : JSVal
  transformRequest : Bool
  transformResponse : Bool
  beforeValueChange : Bool

/-- The effect list emitted by _applyOptions (source lines 857 to 898), in
source order: the key-matched callback when configured, then the issued
request when options.triggerQuery, then the published state change when
options.stateChanges. The request body is the current _query, as
triggerQuery() fetches this.query. -/
def applyEffects (s : SBState) (o : Options) (key : String) (prev next : JSVal) :
    List Effect :=
  (if key == "micStatus" && s.onMicStatusChange then [.micStatusCb prev next] else [])
  ++ (if key == "value" && s.onValueChange then [.valueCb prev next] else [])
  ++ (if key == "error" && s.onError then [.errorCb prev] else [])
  ++ (if key == "suggestionsError" && s.onSuggestionsError then [.suggestionsErrorCb prev] else [])
  ++ (if key == "results" && s.onResults then [.resultsCb prev next] else [])
  ++ (if key == "suggestions" && s.onSuggestions then [.suggestionsCb prev next] else [])
  ++ (if o.triggerQuery then [.request s._query] else [])
  ++ (if o.stateChanges then
        [.notify (notifyIds s.subscribers key) key
          (.obj [(key, .obj [("prev", prev), ("next", next)])])]
      else [])

/-- _applyOptions: appends the emitted effects to the event log. -/
def applyOptions (s : SBState) (o : Options) (key : String) (prev next : JSVal) :
    SBState :=
  { s with events := s.events ++ applyEffects s o key prev next }

/-- setSize (source lines 404 to 408): assigns the given value as is (no
Number coercion here) and applies the options under the key "size". -/
def setSize (s : SBState) (v : JSVal) (o : Options) : SBState :=
  applyOptions { s with size := v } o "size" s.size v

/-- setFrom (source lines 411 to 415). -/
def setFrom (s : SBState) (v : JSVal) (o : Options) : SBState :=
  applyOptions { s with fromV := v } o "from" s.fromV v

/-- setHeaders (source lines 372 to 379): shallow merge of the new headers
over the standing ones. -/
def setHeaders (s : SBState) (h : JSVal) (o : Options) : SBState :=
  let next := JSVal.obj (jsSpreadFields s.headers ++ jsSpreadFields h)
  applyOptions { s with headers := next } o "headers" s.headers next

/-- setFuzziness (source lines 418 to 425). -/
def setFuzziness (s : SBState) (v : JSVal) (o : Options) : SBState :=
  applyOptions { s with fuzziness := v } o "fuzziness" s.fuzziness v

/-- setIncludeFields (source lines 428 to 435). -/
def setIncludeFields (s : SBState) (v : JSVal) (o : Options) : SBState :=
  applyOptions { s with includeFields := v } o "includeFields" s.includeFields v

/-- setExcludeFields (source lines 438 to 445). -/
def setExcludeFields (s : SBState) (v : JSVal) (o : Options) : SBState :=
  applyOptions { s with excludeFields := v } o "excludeFields" s.excludeFields v

/-- setSortBy (source lines 448 to 452). -/
def setSortBy (s : SBState) (v : JSVal) (o : Options) : SBState :=
  applyOptions { s with sortBy := v } o "sortBy" s.sortBy v

/-- setSortByField (source lines 455 to 462). -/
def setSortByField (s : SBState) (v : JSVal) (o : Options) : SBState :=
  applyOptions { s with sortByField := v } o "sortByField" s.sortByField v

/-- setNestedField (source lines 465 to 472). -/
def setNestedField (s : SBState) (v : JSVal) (o : Options) : SBState :=
  applyOptions { s with nestedField := v } o "nestedField" s.nestedField v

/-- setDataField (source lines 475 to 482). -/
def setDataField (s : SBState) (v : JSVal) (o : Options) : SBState :=
  applyOptions { s with dataField := v } o "dataField" s.dataField v

/-- setResults (source lines 485 to 499): only a truthy argument is
applied; the previous ResultSet is replaced by a fresh one, and the
options forwarded to _applyOptions are the literal object with
triggerQuery false and the stateChanges of the per-call options. The
source signature takes an Option carrying only stateChanges; the
triggerQuery member of the per-call options is never read, which the
ignored triggerQuery field of the parameter makes explicit. -/
def setResults (s : SBState) (results : JSVal) (o : Options) : SBState :=
  if truthy results then
    applyOptions { s with results := resultsMake results }
      { triggerQuery := false, stateChanges := o.stateChanges }
      "results" s.results (resultsMake results)
  else s

/-- setSuggestions (source lines 502 to 519): same shape as setResults,
with triggerQuery likewise hardwired to false. -/
def setSuggestions (s : SBState) (suggestions : JSVal) (o : Options) : SBState :=
  if truthy suggestions then
    applyOptions { s with suggestions := resultsMake suggestions }
      { triggerQuery := false, stateChanges := o.stateChanges }
      "suggestions" s.suggestions (resultsMake suggestions)
  else s

/-- The performUpdate closure of setValue (source lines 523 to 527). -/
def setValueUpdate (s : SBState) (v : JSVal) (o : Options) : SBState :=
  applyOptions { s with value := v } o "value" s.value v

/-- The synchronous part of setValue (source lines 522 to 537): with a
configured beforeValueChange hook the assignment is deferred until the
hook settles (see setValueHookResolved and setValueHookRejected), so the
call itself leaves the state unchanged; without a hook the update runs
immediately. -/
def setValue (s : SBState) (v : JSVal) (o : Options) : SBState :=
  if s.beforeValueChange then s else setValueUpdate s v o

/-- The then-branch of setValue once a configured beforeValueChange hook
resolves: performUpdate runs. -/
def setValueHookResolved (s : SBState) (v : JSVal) (o : Options) : SBState :=
  setValueUpdate s v o

/-- The catch-branch of setValue once a configured beforeValueChange hook
rejects with e: only a console warning is emitted, nothing else changes
and nothing is thrown. -/
def setValueHookRejected (s : SBState) (e : JSVal) : SBState :=
  { s with events := s.events ++ [.warn "beforeValueChange rejected the promise with " e] }

/-- The options record generateQueryOptions receives from _updateQuery
(source lines 785 to 793). -/
def gqOptionsOf (s : SBState) : GQOptions :=
  { size := s.size, fromV := s.fromV, includeFields := s.includeFields,
    excludeFields := s.excludeFields, sortOptions := s.sortOptions,
    sortBy := s.sortBy, sortByField := s.sortByField }

/-- The options record defaultQuery receives from _updateQuery (source
lines 799 to 805). -/
def dqOptionsOf (s : SBState) : DQOptions :=
  { dataField := s.dataField, searchOperators := s.searchOperators,
    queryFormat := s.queryFormat, fuzziness := s.fuzziness,
    nestedField := s.nestedField }

/-- _updateQuery (source lines 783 to 814): the effective query is the
user query if truthy, else the default query if truthy, else match_all;
the generated options are spread after the query key and the user query
options are spread last. -/
def updateQuery (s : SBState) (query queryOptions : JSVal) : Except JSVal SBState := do
  let fo ← generateQueryOptions (gqOptionsOf s)
  let dq ← defaultQuery s.value (dqOptionsOf s)
  pure { s with _query := JSVal.obj (("query", jsOr (jsOr query dq) matchAllQuery)
    :: (jsSpreadFields fo ++ jsSpreadFields queryOptions)) }

/-- _updateSuggestionsQuery (source lines 816 to 841): same shape, with
generated options fixed to size 10. -/
def updateSuggestionsQuery (s : SBState) (query queryOptions : JSVal) :
    Except JSVal SBState := do
  let fo ← generateQueryOptions
    { size := .num 10, fromV := .undefined, includeFields := .undefined,
      excludeFields := .undefined, sortOptions := .undefined, sortBy := .undefined,
      sortByField := .undefined }
  let dq ← defaultQuery s.value (dqOptionsOf s)
  pure { s with _suggestionsQuery := JSVal.obj (("query", jsOr (jsOr query dq) matchAllQuery)
    :: (jsSpreadFields fo ++ jsSpreadFields queryOptions)) }

/-- The literal default argument of _syncQueryOptions (source lines 845 to
848). -/
def syncDefaultArg : JSVal :=
  .obj [("triggerQuery", .bool false), ("stateChanges", .bool true)]

/-- Reading an options object through its truthiness, as _applyOptions
does. -/
def optionsOfJS (v : JSVal) : Options :=
  { triggerQuery := truthy (jsMemberD v "triggerQuery"),
    stateChanges := truthy (jsMemberD v "stateChanges") }

/-- _syncQueryOptions (source lines 844 to 854): forwards a defined size
of its own options argument to setSize. The one call site passes no
argument, so the default options object is inspected and no sync happens. -/
def syncQueryOptions (s : SBState) (queryOptions : JSVal) : SBState :=
  if !(isUndef (jsMemberD queryOptions "size")) then
    setSize s (jsMemberD queryOptions "size") (optionsOfJS queryOptions)
  else s

/-- The query accessor setter (source lines 338 to 346): destructures the
incoming object (or an empty object when falsy) into the query key and the
rest, recomputes _query, then always runs _syncQueryOptions with its
default argument (the destructured rest object is always truthy). -/
def querySet (s : SBState) (queryTobeSet : JSVal) : Except JSVal SBState := do
  let base := jsOr queryTobeSet (.obj [])
  let s' ← updateQuery s (jsMemberD base "query") (JSVal.obj (jsRestFields base "query"))
  pure (syncQueryOptions s' syncDefaultArg)

/-- setQuery (source lines 382 to 386): runs the query accessor setter and
applies the options under the key "query" with the previous and the new
_query. -/
def setQuery (s : SBState) (q : JSVal) (o : Options) : Except JSVal SBState := do
  let s' ← querySet s q
  pure (applyOptions s' o "query" s._query s'._query)

/-- The suggestionsQuery accessor setter (source lines 352 to 356). -/
def suggestionsQuerySet (s : SBState) (queryTobeSet : JSVal) : Except JSVal SBState := do
  let base := jsOr queryTobeSet (.obj [])
  updateSuggestionsQuery s (jsMemberD base "query") (JSVal.obj (jsRestFields base "query"))

/-- setSuggestionsQuery (source lines 389 to 401). -/
def setSuggestionsQuery (s : SBState) (q : JSVal) (o : Options) : Except JSVal SBState := do
  let s' ← suggestionsQuerySet s q
  pure (applyOptions s' o "suggestionsQuery" s._suggestionsQuery s'._suggestionsQuery)

/-! ## Constructor -/

/-- The base headers (source lines 267 to 276): Accept and Content-Type,
plus a basic Authorization header when credentials are truthy. -/
def initialHeaders (credentials : JSVal) : JSVal :=
  let base := [("Accept", JSVal.str "application/json"),
               ("Content-Type", JSVal.str "application/json")]
  if truthy credentials then
    .obj (base ++ [("Authorization", .str ("Basic " ++ btoa (jsToString credentials)))])
  else .obj base

/-- The state after the plain property assignments of the constructor
(source lines 237 to 264), before headers, value and query are applied. -/
def initialState (c : Config) : SBState :=
  { index := c.index
    url := c.url
    credentials := jsOr c.credentials (.str "")
    analytics := jsOr c.analytics (.bool false)
    dataField := c.dataField
    nestedField := jsOr c.nestedField (.str "")
    updateOn := jsOr c.updateOn (.str "change")
    queryFormat := jsOr c.queryFormat (.str "or")
    voiceSearch := jsOr c.voiceSearch (.bool false)
    fuzziness := jsOr c.fuzziness (.num 0)
    searchOperators := jsOr c.searchOperators (.bool false)
    size := jsOr (toNumber c.size) (.num 10)
    fromV := jsOr (toNumber c.fromV) (.num 0)
    sortBy := jsOr c.sortBy (.str "")
    sortByField := .undefined
    includeFields := jsOr c.includeFields (.arr [.str "*"])
    excludeFields := jsOr c.excludeFields (.arr [])
    sortOptions := jsOr c.sortOptions .null
    value := .undefined
    headers := initialHeaders (jsOr c.credentials (.str ""))
    results := resultsMake c.results
    suggestions := resultsMake c.suggestions
    error := .undefined
    suggestionsError := .undefined
    _query := .undefined
    _suggestionsQuery := .undefined
    _searchId := .undefined
    transformRequest := c.transformRequest
    transformResponse := c.transformResponse
    beforeValueChange := c.beforeValueChange
    onValueChange := false
    onResults := false
    onSuggestions := false
    onError := false
    onSuggestionsError := false
    onMicStatusChange := false
    subscribers := []
    events := [] }

/-- The three validation checks at the top of the constructor (source
lines 228 to 236). -/
def configChecks (c : Config) : Except JSVal Unit :=
  if !(truthy c.index) then .error (jsError "Please provide a valid index.")
  else if !(truthy c.url) then .error (jsError "Please provide a valid url.")
  else if !(truthy c.dataField) then .error (jsError "Please provide a valid data field.")
  else .ok ()

/-- The state after the custom headers are merged (source lines 277 to
282). -/
def postHeadersState (c : Config) : SBState :=
  if truthy c.headers then
    setHeaders (initialState c) c.headers { triggerQuery := false, stateChanges := false }
  else initialState c

/-- The state after the initial value is applied (source lines 284 to
289): a truthy value goes through setValue with triggerQuery set to the
negation of the truthiness of query. -/
def preQueryState (c : Config) : SBState :=
  if truthy c.value then
    setValue (postHeadersState c) c.value
      { triggerQuery := !(truthy c.query), stateChanges := true }
  else postHeadersState c

/-- The constructor (source lines 200 to 306): the validation checks
throw, the properties are assigned, custom headers merged, a truthy value
applied, the query set or recomputed, and a truthy suggestionsQuery
triggers setSuggestionsQuery WITH THE QUERY ARGUMENT (source line 301
passes query, not suggestionsQuery). A configured beforeValueChange defers
the initial value assignment past construction, exactly as the synchronous
setValue does. -/
def construct (c : Config) : Except JSVal SBState := do
  configChecks c
  let s3 ← if truthy c.query then
      setQuery (preQueryState c) c.query { triggerQuery := true, stateChanges := false }
    else updateQuery (preQueryState c) .undefined .undefined
  if truthy c.suggestionsQuery then
    setSuggestionsQuery s3 c.query { triggerQuery := true, stateChanges := false }
  else pure s3

/-! ## Request pipeline -/

/-- The analytics headers of _fetchRequest (source lines 682 to 693): a
truthy prior search id contributes X-Search-Id and X-Search-Query; else a
truthy value contributes X-Search-Query alone. -/
def analyticsHeaders (s : SBState) : List (String × JSVal) :=
  if truthy s._searchId then
    [("X-Search-Id", s._searchId), ("X-Search-Query", s.value)]
  else if truthy s.value then
    [("X-Search-Query", s.value)]
  else []

/-- The request options built by _fetchRequest (source lines 695 to 702):
POST, the stringified body, and the standing headers spread first with the
analytics headers spread after them. -/
def requestOptions (s : SBState) (requestBody : JSVal) : JSVal :=
  .obj [("method", .str "POST"),
        ("body", jsStringifyVal requestBody),
        ("headers", .obj (jsSpreadFields s.headers ++ analyticsHeaders s))]

/-- How _fetchRequest settles once a response has arrived and the
transform hook has produced transformedData (source lines 719 to 743):
status at least 500 or at least 400 rejects with the response; a truthy
transformed body that has an own error property rejects with that body (a
promise settles once, so the resolve that follows in the source is a
no-op); otherwise it resolves with the body plus timestamp and headers. -/
def fetchSettle (status : Nat) (res transformedData : JSVal) (timestamp : Int)
    (responseHeaders : JSVal) : Except JSVal JSVal :=
  if 500 ≤ status then .error res
  else if 400 ≤ status then .error res
  else if truthy transformedData && jsHasOwn transformedData "error" then
    .error transformedData
  else .ok (.obj (jsSpreadFields transformedData
    ++ [("_timestamp", .num timestamp), ("_headers", responseHeaders)]))

/-- _setError (source lines 776 to 780). -/
def setErrorS (s : SBState) (err : JSVal) (o : Options) : SBState :=
  applyOptions { s with error := err } o "error" s.error err

/-- The continuation of triggerQuery (source lines 583 to 605) once the
fetch settles: the search id extracted from the response headers is stored
(source line 716, applied before settling), then a resolution stores the
raw results and applies options under "results" (prev and next alias the
same mutated ResultSet instance in the source, so both carry the updated
value), while a rejection goes through _setError with triggerQuery false
and the stateChanges of the call. -/
def triggerQueryResolve (s : SBState) (stateChanges : Bool) (newSearchId : JSVal)
    (outcome : Except JSVal JSVal) : SBState :=
  let s1 := { s with _searchId := jsOr newSearchId .null }
  match outcome with
  | .ok raw =>
    let next := resultsSetRaw s1.results raw
    applyOptions { s1 with results := next }
      { triggerQuery := false, stateChanges := stateChanges } "results" next next
  | .error err =>
    setErrorS s1 err { triggerQuery := false, stateChanges := stateChanges }

/-! ## Concrete example instances used by the witnesses -/

/-- A state with every field empty, used only as an unreachable fallback
when extracting the result of a construction known to succeed. -/
def blankState : SBState :=
  { index := .undefined, url := .undefined, credentials := .undefined, analytics := .undefined,
    dataField := .undefined, nestedField := .undefined, updateOn := .undefined,
    queryFormat := .undefined, voiceSearch := .undefined, fuzziness := .undefined,
    searchOperators := .undefined, size := .undefined, fromV := .undefined, sortBy := .undefined,
    sortByField := .undefined, includeFields := .undefined, excludeFields := .undefined,
    sortOptions := .undefined, value := .undefined, headers := .undefined, results := .undefined,
    suggestions := .undefined, error := .undefined, suggestionsError := .undefined,
    _query := .undefined, _suggestionsQuery := .undefined, _searchId := .undefined,
    transformRequest := false, transformResponse := false,
    beforeValueChange := false, onValueChange := false, onResults := false,
    onSuggestions := false, onError := false, onSuggestionsError := false,
    onMicStatusChange := false, subscribers := [], events := [] }

/-- A configuration with only the three required entries supplied. -/
def cfgEx : Config :=
  { index := .str "books", url := .str "http://localhost:9200",
    credentials := .undefined, analytics := .undefined, headers := .undefined,
    value := .undefined, query := .undefined, suggestionsQuery := .undefined,
    updateOn := .undefined, suggestions := .undefined, results := .undefined,
    voiceSearch := .undefined, fuzziness := .undefined, searchOperators := .undefined,
    queryFormat := .undefined, size := .undefined, fromV := .undefined,
    dataField := .str "title", includeFields := .undefined, excludeFields := .undefined,
    sortBy := .undefined, nestedField := .undefined, sortOptions := .undefined,
    transformRequest := false, transformResponse := false,
    beforeValueChange := false }

/-- The state constructed from cfgEx. -/
def exState : SBState :=
  match construct cfgEx with
  | .ok s => s
  | .error _ => blankState

example : (construct cfgEx).isOk = true := rfl
example : exState.size = .num 10 := rfl
example : exState.fromV = .num 0 := rfl
example : jsLookup exState._query "query" = some matchAllQuery := rfl
example : jsLookup exState._query "size" = some (.num 10) := rfl
example : jsLookup exState._query "_source" =
  some (.obj [("includes", .arr [.str "*"]), ("excludes", .arr [])]) := rfl
example : (construct { cfgEx with dataField := .arr [] }).isOk = true := rfl
example : (construct { cfgEx with index := .undefined }).isOk = false := rfl
example : (construct { cfgEx with index := .str "" }).isOk = false := rfl
example : defaultQuery (.str "") (dqOptionsOf exState) = .ok .null := rfl
example : defaultQuery .undefined (dqOptionsOf exState) = .ok .null := rfl
example :
    generateQueryOptions
      { size := .undefined, fromV := .undefined, includeFields := .undefined,
        excludeFields := .undefined,
        sortOptions := .arr [.obj [("dataField", .str "year"), ("sortBy", .str "desc")]],
        sortBy := .str "asc", sortByField := .str "title" } =
    .ok (.obj [("sort", .arr [.obj [("year", .obj [("order", .str "desc")])]])]) := rfl

example :
    (match construct { cfgEx with suggestionsQuery := .obj [("query", .obj [("term", .str "x")])] } with
     | .ok s => jsLookup s._suggestionsQuery "query"
     | .error _ => none) = some matchAllQuery := rfl
example :
    (match construct { cfgEx with value := .str "cat" } with
     | .ok s => s.value
     | .error _ => .undefined) = .str "cat" := rfl
example :
    (match construct { cfgEx with value := .str "cat" } with
     | .ok s => s.events
     | .error _ => []).length = 2 := rfl

/-! ## Helper lemmas -/

theorem bindOk {α β : Type} {e : Except JSVal α} {f : α → Except JSVal β} {b : β}
    (h : (e >>= f) = .ok b) : ∃ a, e = .ok a ∧ f a = .ok b := by
  cases e with
  | ok a => exact ⟨a, rfl, h⟩
  | error ε => exact Except.noConfusion h

theorem jsLookupF_append_some {l₂ : List (String × JSVal)} {k : String} {v : JSVal}
    (l₁ : List (String × JSVal)) (h : jsLookupF l₂ k = some v) :
    jsLookupF (l₁ ++ l₂) k = some v := by
  induction l₁ with
  | nil => simpa using h
  | cons p rest ih => simp [jsLookupF, ih]

theorem jsLookupF_append_none {l₂ : List (String × JSVal)} {k : String}
    (l₁ : List (String × JSVal)) (h : jsLookupF l₂ k = none) :
    jsLookupF (l₁ ++ l₂) k = jsLookupF l₁ k := by
  induction l₁ with
  | nil => simpa using h
  | cons p rest ih => simp [jsLookupF, ih]

theorem jsLookupF_cons_some {rest : List (String × JSVal)} {k : String} {v : JSVal}
    (p : String × JSVal) (h : jsLookupF rest k = some v) :
    jsLookupF (p :: rest) k = some v := by
  simp [jsLookupF, h]

theorem jsLookupF_filter_ne (l : List (String × JSVal)) (k : String) :
    jsLookupF (l.filter (fun p => p.1 != k)) k = none := by
  induction l with
  | nil => rfl
  | cons p rest ih =>
    by_cases hp : p.1 = k
    · simp [List.filter, hp, ih]
    · simp only [List.filter]
      have : (p.1 != k) = true := by simpa using hp
      rw [this]
      simp [jsLookupF, ih, hp]

theorem syncDefault_id (s : SBState) : syncQueryOptions s syncDefaultArg = s := rfl

theorem updateQuery_ok {s : SBState} {q qo : JSVal} {s' : SBState}
    (h : updateQuery s q qo = .ok s') :
    ∃ fo dq, generateQueryOptions (gqOptionsOf s) = .ok fo ∧
      defaultQuery s.value (dqOptionsOf s) = .ok dq ∧
      s' = { s with _query := JSVal.obj (("query", jsOr (jsOr q dq) matchAllQuery)
        :: (jsSpreadFields fo ++ jsSpreadFields qo)) } := by
  unfold updateQuery at h
  obtain ⟨fo, hfo, h⟩ := bindOk h
  obtain ⟨dq, hdq, h⟩ := bindOk h
  exact ⟨fo, dq, hfo, hdq, (Except.ok.inj h).symm⟩

theorem updateSuggestionsQuery_ok {s : SBState} {q qo : JSVal} {s' : SBState}
    (h : updateSuggestionsQuery s q qo = .ok s') :
    ∃ dq, defaultQuery s.value (dqOptionsOf s) = .ok dq ∧
      s' = { s with _suggestionsQuery := JSVal.obj (("query", jsOr (jsOr q dq) matchAllQuery)
        :: (("size", JSVal.num 10) :: jsSpreadFields qo)) } := by
  unfold updateSuggestionsQuery at h
  obtain ⟨fo, hfo, h⟩ := bindOk h
  obtain ⟨dq, hdq, h⟩ := bindOk h
  have hfo' : fo = JSVal.obj [("size", JSVal.num 10)] := (Except.ok.inj hfo).symm
  subst hfo'
  exact ⟨dq, hdq, (Except.ok.inj h).symm⟩

theorem querySet_ok {s : SBState} {q : JSVal} {s' : SBState}
    (h : querySet s q = .ok s') :
    ∃ fo dq, generateQueryOptions (gqOptionsOf s) = .ok fo ∧
      defaultQuery s.value (dqOptionsOf s) = .ok dq ∧
      s' = { s with _query := JSVal.obj (
        ("query", jsOr (jsOr (jsMemberD (jsOr q (.obj [])) "query") dq) matchAllQuery)
          :: (jsSpreadFields fo ++ jsRestFields (jsOr q (.obj [])) "query")) } := by
  unfold querySet at h
  obtain ⟨s₁, h₁, h₂⟩ := bindOk h
  obtain ⟨fo, dq, hfo, hdq, hs₁⟩ := updateQuery_ok h₁
  refine ⟨fo, dq, hfo, hdq, ?_⟩
  have : s' = syncQueryOptions s₁ syncDefaultArg := (Except.ok.inj h₂).symm
  rw [this, syncDefault_id, hs₁]
  rfl

theorem setQuery_ok {s : SBState} {q : JSVal} {o : Options} {s' : SBState}
    (h : setQuery s q o = .ok s') :
    ∃ s₁, querySet s q = .ok s₁ ∧ s' = applyOptions s₁ o "query" s._query s₁._query := by
  unfold setQuery at h
  obtain ⟨s₁, h₁, h₂⟩ := bindOk h
  exact ⟨s₁, h₁, (Except.ok.inj h₂).symm⟩

theorem suggestionsQuerySet_ok {s : SBState} {q : JSVal} {s' : SBState}
    (h : suggestionsQuerySet s q = .ok s') :
    ∃ dq, defaultQuery s.value (dqOptionsOf s) = .ok dq ∧
      s' = { s with _suggestionsQuery := JSVal.obj (
        ("query", jsOr (jsOr (jsMemberD (jsOr q (.obj [])) "query") dq) matchAllQuery)
          :: (("size", JSVal.num 10) :: jsRestFields (jsOr q (.obj [])) "query")) } := by
  unfold suggestionsQuerySet at h
  exact updateSuggestionsQuery_ok h

theorem setSuggestionsQuery_ok {s : SBState} {q : JSVal} {o : Options} {s' : SBState}
    (h : setSuggestionsQuery s q o = .ok s') :
    ∃ s₁, suggestionsQuerySet s q = .ok s₁ ∧
      s' = applyOptions s₁ o "suggestionsQuery" s._suggestionsQuery s₁._suggestionsQuery := by
  unfold setSuggestionsQuery at h
  obtain ⟨s₁, h₁, h₂⟩ := bindOk h
  exact ⟨s₁, h₁, (Except.ok.inj h₂).symm⟩

/-! ## Claim C6 -/

/-- C6: for every options object, defaultQuery applied to the empty string
returns null, and applied to undefined returns null; in both cases this is
a normal return (the ok of the embedding), not an error. -/
theorem c6_defaultQuery_falsy_value_null (o : DQOptions) :
    defaultQuery (.str "") o = .ok .null ∧ defaultQuery .undefined o = .ok .null :=
  ⟨rfl, rfl⟩

/-! ## Claim C7 -/


/-- The size, from and _source part of the generateQueryOptions output
(definitionally the first three segments of the assembled object). -/
def gqoPrefixFields (o : GQOptions) : List (String × JSVal) :=
  (if !(isUndef o.size) then [("size", o.size)] else [])
  ++ (if !(isUndef o.fromV) then [("from", o.fromV)] else [])
  ++ (if truthy o.includeFields || truthy o.excludeFields then
        [("_source", JSVal.obj (
          (if truthy o.includeFields then [("includes", o.includeFields)] else [])
          ++ (if truthy o.excludeFields then [("excludes", o.excludeFields)] else [])))]
      else [])

theorem generateQueryOptions_ok {o : GQOptions} {fo : JSVal}
    (h : generateQueryOptions o = .ok fo) :
    ∃ sc, sortClause o = .ok sc ∧ fo = JSVal.obj (gqoPrefixFields o
      ++ (match sc with | some v => [("sort", v)] | none => [])) := by
  unfold generateQueryOptions at h
  obtain ⟨sc, hsc, h⟩ := bindOk h
  exact ⟨sc, hsc, (Except.ok.inj h).symm⟩

theorem gqoPrefix_no_key (o : GQOptions) (k : String)
    (h1 : ("size" == k) = false) (h2 : ("from" == k) = false)
    (h3 : ("_source" == k) = false) :
    jsLookupF (gqoPrefixFields o) k = none := by
  unfold gqoPrefixFields
  rw [jsLookupF_append_none _ (by split <;> simp [jsLookupF, h3])]
  rw [jsLookupF_append_none _ (by split <;> simp [jsLookupF, h2])]
  split <;> simp [jsLookupF, h1]

theorem gqoPrefix_no_sort (o : GQOptions) :
    jsLookupF (gqoPrefixFields o) "sort" = none :=
  gqoPrefix_no_key o "sort" rfl rfl rfl

theorem sortClause_singleton {o : GQOptions} {w : JSVal}
    (h : sortClause o = .ok (some w)) : ∃ x, w = .arr [x] := by
  unfold sortClause at h
  split at h
  · obtain ⟨df, hdf, h⟩ := bindOk h
    obtain ⟨sb, hsb, h⟩ := bindOk h
    exact ⟨_, (Option.some.inj (Except.ok.inj h)).symm⟩
  · split at h
    · exact ⟨_, (Option.some.inj (Except.ok.inj h)).symm⟩
    · exact Option.noConfusion (Except.ok.inj h)

/-- C7: a non-empty sortOptions list makes generateQueryOptions emit a
single sort clause built from the first entry of the list, overriding any
plain sortBy and sortByField pair also present; with sortOptions absent
and a truthy sortBy and sortByField pair, the single clause uses that
pair; and every emitted sort is a one-element array. -/
theorem c7_sort_precedence :
    (∀ (o : GQOptions) (fields : List (String × JSVal)) (tl : List JSVal),
      o.sortOptions = .arr (.obj fields :: tl) →
      ∃ fo, generateQueryOptions o = .ok fo ∧
        jsLookup fo "sort" = some (.arr [.obj
          [(jsToString ((jsLookupF fields "dataField").getD .undefined),
            JSVal.obj [("order", (jsLookupF fields "sortBy").getD .undefined)])]]))
  ∧ (∀ (o : GQOptions), truthy o.sortOptions = false → truthy o.sortBy = true →
      truthy o.sortByField = true →
      ∃ fo, generateQueryOptions o = .ok fo ∧
        jsLookup fo "sort" = some (.arr [.obj
          [(jsToString o.sortByField, JSVal.obj [("order", o.sortBy)])]]))
  ∧ (∀ (o : GQOptions) (fo v : JSVal), generateQueryOptions o = .ok fo →
      jsLookup fo "sort" = some v → ∃ x, v = .arr [x]) := by
  refine ⟨?_, ?_, ?_⟩
  · intro o fields tl h
    have hsc : sortClause o = .ok (some (.arr [.obj
        [(jsToString ((jsLookupF fields "dataField").getD .undefined),
          JSVal.obj [("order", (jsLookupF fields "sortBy").getD .undefined)])]])) := by
      unfold sortClause
      rw [h]
      rfl
    have hg : generateQueryOptions o = .ok (JSVal.obj (gqoPrefixFields o
        ++ [("sort", .arr [.obj
          [(jsToString ((jsLookupF fields "dataField").getD .undefined),
            JSVal.obj [("order", (jsLookupF fields "sortBy").getD .undefined)])]])])) := by
      unfold generateQueryOptions
      rw [hsc]
      rfl
    refine ⟨_, hg, ?_⟩
    show jsLookupF _ "sort" = _
    exact jsLookupF_append_some _ rfl
  · intro o h1 h2 h3
    have hsc : sortClause o = .ok (some (.arr [.obj
        [(jsToString o.sortByField, JSVal.obj [("order", o.sortBy)])]])) := by
      unfold sortClause
      rw [h1, h2, h3]
      rfl
    have hg : generateQueryOptions o = .ok (JSVal.obj (gqoPrefixFields o
        ++ [("sort", .arr [.obj
          [(jsToString o.sortByField, JSVal.obj [("order", o.sortBy)])]])])) := by
      unfold generateQueryOptions
      rw [hsc]
      rfl
    refine ⟨_, hg, ?_⟩
    show jsLookupF _ "sort" = _
    exact jsLookupF_append_some _ rfl
  · intro o fo v h hv
    obtain ⟨sc, hsc, hfo⟩ := generateQueryOptions_ok h
    subst hfo
    cases sc with
    | none =>
      exfalso
      have hemp : jsLookupF ([] : List (String × JSVal)) "sort" = none := rfl
      have hnone : jsLookupF (gqoPrefixFields o ++ ([] : List (String × JSVal))) "sort" = none := by
        rw [jsLookupF_append_none _ hemp]
        exact gqoPrefix_no_sort o
      rw [show jsLookup (JSVal.obj (gqoPrefixFields o ++ ([] : List (String × JSVal)))) "sort"
          = jsLookupF (gqoPrefixFields o ++ ([] : List (String × JSVal))) "sort" from rfl, hnone] at hv
      exact Option.noConfusion hv
    | some w =>
      have hsome : jsLookupF (gqoPrefixFields o ++ [("sort", w)]) "sort" = some w :=
        jsLookupF_append_some _ rfl
      rw [show jsLookup (JSVal.obj (gqoPrefixFields o ++ [("sort", w)])) "sort"
          = jsLookupF (gqoPrefixFields o ++ [("sort", w)]) "sort" from rfl, hsome] at hv
      obtain ⟨x, hx⟩ := sortClause_singleton hsc
      exact ⟨x, (Option.some.inj hv).symm.trans hx⟩

/-- The options object of the spec example for the sort precedence. -/
def gqoEx : GQOptions :=
  { size := .undefined, fromV := .undefined, includeFields := .undefined,
    excludeFields := .undefined,
    sortOptions := .arr [.obj [("dataField", .str "year"), ("sortBy", .str "desc")]],
    sortBy := .str "asc", sortByField := .str "title" }

def gqoEx2 : GQOptions := { gqoEx with sortOptions := .undefined }

/-- Witness for C7: the three parts applied at the spec example. -/
theorem c7_sort_precedence_witness :
    (∃ fo, generateQueryOptions gqoEx = .ok fo ∧
      jsLookup fo "sort" = some (.arr [.obj [("year", .obj [("order", .str "desc")])]]))
  ∧ (∃ fo, generateQueryOptions gqoEx2 = .ok fo ∧
      jsLookup fo "sort" = some (.arr [.obj [("title", .obj [("order", .str "asc")])]]))
  ∧ (∃ x, (JSVal.arr [.obj [("year", .obj [("order", .str "desc")])]]) = .arr [x]) := by
  refine ⟨?_, ?_, ?_⟩
  · exact c7_sort_precedence.1 gqoEx
      [("dataField", .str "year"), ("sortBy", .str "desc")] [] rfl
  · exact c7_sort_precedence.2.1 gqoEx2 rfl rfl rfl
  · exact c7_sort_precedence.2.2 gqoEx
      (.obj [("sort", .arr [.obj [("year", .obj [("order", .str "desc")])]])])
      (.arr [.obj [("year", .obj [("order", .str "desc")])]]) rfl rfl

/-! ## Claim C1 -/

theorem generateQueryOptions_no_key {o : GQOptions} {fo : JSVal} (k : String)
    (h : generateQueryOptions o = .ok fo)
    (h1 : ("size" == k) = false) (h2 : ("from" == k) = false)
    (h3 : ("_source" == k) = false) (h4 : ("sort" == k) = false) :
    jsLookup fo k = none := by
  obtain ⟨sc, hsc, hfo⟩ := generateQueryOptions_ok h
  subst hfo
  clear hsc h
  show jsLookupF _ k = none
  have hD : jsLookupF (match sc with | some v => [("sort", v)] | none => []) k = none := by
    cases sc with
    | none => rfl
    | some v => simp [jsLookupF, h4]
  rw [jsLookupF_append_none _ hD]
  exact gqoPrefix_no_key o k h1 h2 h3

/-- C1: after the query accessor setter runs on any state and any incoming
value, the effective _query holds, under the key "query", the user
override query if truthy, else the default query of the current value if
truthy, else match_all; every user supplied raw query option wins over the
generated options, and a generated option survives at every key the user
does not supply. -/
theorem c1_effective_query (s : SBState) (q : JSVal) (s' : SBState)
    (h : querySet s q = .ok s') :
    ∃ fo dq, generateQueryOptions (gqOptionsOf s) = .ok fo ∧
      defaultQuery s.value (dqOptionsOf s) = .ok dq ∧
      jsLookup s'._query "query"
        = some (jsOr (jsOr (jsMemberD (jsOr q (.obj [])) "query") dq) matchAllQuery) ∧
      (∀ k v, jsLookupF (jsRestFields (jsOr q (.obj [])) "query") k = some v →
        jsLookup s'._query k = some v) ∧
      (∀ k v, jsLookupF (jsRestFields (jsOr q (.obj [])) "query") k = none →
        jsLookup fo k = some v → jsLookup s'._query k = some v) := by
  obtain ⟨fo, dq, hfo, hdq, hs'⟩ := querySet_ok h
  subst hs'
  obtain ⟨sc, hsc, hfoeq⟩ := generateQueryOptions_ok hfo
  refine ⟨fo, dq, hfo, hdq, ?_, ?_, ?_⟩
  · have hrest : jsLookupF (jsRestFields (jsOr q (.obj [])) "query") "query" = none :=
      jsLookupF_filter_ne _ _
    have hfoQ : jsLookup fo "query" = none :=
      generateQueryOptions_no_key "query" hfo rfl rfl rfl rfl
    have hspread : jsLookupF (jsSpreadFields fo) "query" = none := by
      subst hfoeq
      exact hfoQ
    have hin : jsLookupF (jsSpreadFields fo ++ jsRestFields (jsOr q (.obj [])) "query")
        "query" = none := by
      rw [jsLookupF_append_none _ hrest]
      exact hspread
    show jsLookupF _ "query" = _
    simp [jsLookupF, hin]
  · intro k v hk
    exact jsLookupF_cons_some _ (jsLookupF_append_some _ hk)
  · intro k v hnone hfok
    have hspread : jsLookupF (jsSpreadFields fo) k = some v := by
      subst hfoeq
      exact hfok
    refine jsLookupF_cons_some _ ?_
    rw [jsLookupF_append_none _ hnone]
    exact hspread

/-- A query object with both an override query and a raw size option. -/
def exQ1 : JSVal := .obj [("query", .obj [("term", .str "x")]), ("size", .num 25)]

/-- The state after running the query setter on exState with exQ1. -/
def exS1 : SBState :=
  match querySet exState exQ1 with
  | .ok s => s
  | .error _ => blankState

/-- Witness for C1 at a concrete state and query object: the override query
lands under "query" and the user size option wins. -/
theorem c1_effective_query_witness :
    querySet exState exQ1 = .ok exS1
    ∧ jsLookup exS1._query "query" = some (.obj [("term", .str "x")])
    ∧ jsLookup exS1._query "size" = some (.num 25) := by
  have h : querySet exState exQ1 = .ok exS1 := rfl
  obtain ⟨fo, dq, hfo, hdq, h1, h2, h3⟩ := c1_effective_query exState exQ1 exS1 h
  have hdqnull : defaultQuery exState.value (dqOptionsOf exState) = .ok JSVal.null := rfl
  rw [hdqnull] at hdq
  have hdq' : JSVal.null = dq := Except.ok.inj hdq
  refine ⟨h, ?_, h2 "size" (.num 25) rfl⟩
  rw [← hdq'] at h1
  exact h1

/-! ## Claim C5 -/

/-- The state-change notification effect published for a key. -/
def notifyEff (s : SBState) (key : String) (prev next : JSVal) : Effect :=
  .notify (notifyIds s.subscribers key) key
    (.obj [(key, .obj [("prev", prev), ("next", next)])])

/-- A concrete state with three subscribers: one unfiltered, one keyed on
size, one keyed on value. -/
def exState5 : SBState :=
  { exState with subscribers :=
      [{ id := 1, keys := none }, { id := 2, keys := some ["size"] },
       { id := 3, keys := some ["value"] }] }

/-- Counterexample to C5 as stated: the claim says that for every setter
the triggerQuery effect is controlled by the per-call options, but
setResults (source lines 485 to 499) forwards the literal triggerQuery
false to _applyOptions, so a call whose per-call options carry
triggerQuery true still issues no request: its only effect is the
state-change notification to the unfiltered subscriber. -/
theorem c5_setResults_ignores_triggerQuery :
    (setResults exState5 (.arr [.obj [("t", .str "x")]])
        { triggerQuery := true, stateChanges := true }).events
      = [.notify [1] "results"
          (.obj [("results", .obj [("prev", resultsMake .undefined),
            ("next", resultsMake (.arr [.obj [("t", .str "x")]]))])])]
    ∧ Effect.request exState5._query ∉
        (setResults exState5 (.arr [.obj [("t", .str "x")]])
          { triggerQuery := true, stateChanges := true }).events := by
  have h : (setResults exState5 (.arr [.obj [("t", .str "x")]])
      { triggerQuery := true, stateChanges := true }).events
    = [.notify [1] "results"
        (.obj [("results", .obj [("prev", resultsMake .undefined),
          ("next", resultsMake (.arr [.obj [("t", .str "x")]]))])])] := rfl
  refine ⟨h, ?_⟩
  intro hmem
  rw [h] at hmem
  simp at hmem

/-- C5 amended: setSize with triggerQuery false and stateChanges true
assigns the size, notifies exactly the subscribers whose filter admits
"size" (or that have no filter) with the size change map, and issues no
request; for every setter that takes the full per-call options (setSize,
setFrom, setHeaders, setFuzziness, setIncludeFields, setExcludeFields,
setSortBy, setSortByField, setNestedField, setDataField, the value update
applied by setValue, setQuery and setSuggestionsQuery) the request effect
and the notification are controlled independently by the two booleans;
setResults and setSuggestions are the exception: their per-call options
carry only stateChanges and triggerQuery is hardwired to false, so no
request can be issued through them. -/
theorem c5_setter_options_amended :
    (∀ (s : SBState) (n : JSVal) (b₁ b₂ : Bool),
      (setSize s n { triggerQuery := b₁, stateChanges := b₂ }).size = n
      ∧ (setSize s n { triggerQuery := b₁, stateChanges := b₂ }).events
        = s.events ++ (if b₁ then [.request s._query] else [])
          ++ (if b₂ then [notifyEff s "size" s.size n] else []))
  ∧ (∀ (s : SBState) (sub : Subscription), sub ∈ s.subscribers →
      subMatches sub "size" = true → sub.id ∈ notifyIds s.subscribers "size")
  ∧ (∀ (s : SBState) (n body : JSVal),
      Effect.request body ∈
        (setSize s n { triggerQuery := false, stateChanges := true }).events
      ↔ Effect.request body ∈ s.events)
  ∧ (∀ (s : SBState) (v : JSVal) (b₁ b₂ : Bool),
      (setFrom s v { triggerQuery := b₁, stateChanges := b₂ }).events
        = s.events ++ (if b₁ then [.request s._query] else [])
          ++ (if b₂ then [notifyEff s "from" s.fromV v] else []))
  ∧ (∀ (s : SBState) (v : JSVal) (b₁ b₂ : Bool),
      (setHeaders s v { triggerQuery := b₁, stateChanges := b₂ }).events
        = s.events ++ (if b₁ then [.request s._query] else [])
          ++ (if b₂ then [notifyEff s "headers" s.headers
                (JSVal.obj (jsSpreadFields s.headers ++ jsSpreadFields v))] else []))
  ∧ (∀ (s : SBState) (v : JSVal) (b₁ b₂ : Bool),
      (setFuzziness s v { triggerQuery := b₁, stateChanges := b₂ }).events
        = s.events ++ (if b₁ then [.request s._query] else [])
          ++ (if b₂ then [notifyEff s "fuzziness" s.fuzziness v] else []))
  ∧ (∀ (s : SBState) (v : JSVal) (b₁ b₂ : Bool),
      (setIncludeFields s v { triggerQuery := b₁, stateChanges := b₂ }).events
        = s.events ++ (if b₁ then [.request s._query] else [])
          ++ (if b₂ then [notifyEff s "includeFields" s.includeFields v] else []))
  ∧ (∀ (s : SBState) (v : JSVal) (b₁ b₂ : Bool),
      (setExcludeFields s v { triggerQuery := b₁, stateChanges := b₂ }).events
        = s.events ++ (if b₁ then [.request s._query] else [])
          ++ (if b₂ then [notifyEff s "excludeFields" s.excludeFields v] else []))
  ∧ (∀ (s : SBState) (v : JSVal) (b₁ b₂ : Bool),
      (setSortBy s v { triggerQuery := b₁, stateChanges := b₂ }).events
        = s.events ++ (if b₁ then [.request s._query] else [])
          ++ (if b₂ then [notifyEff s "sortBy" s.sortBy v] else []))
  ∧ (∀ (s : SBState) (v : JSVal) (b₁ b₂ : Bool),
      (setSortByField s v { triggerQuery := b₁, stateChanges := b₂ }).events
        = s.events ++ (if b₁ then [.request s._query] else [])
          ++ (if b₂ then [notifyEff s "sortByField" s.sortByField v] else []))
  ∧ (∀ (s : SBState) (v : JSVal) (b₁ b₂ : Bool),
      (setNestedField s v { triggerQuery := b₁, stateChanges := b₂ }).events
        = s.events ++ (if b₁ then [.request s._query] else [])
          ++ (if b₂ then [notifyEff s "nestedField" s.nestedField v] else []))
  ∧ (∀ (s : SBState) (v : JSVal) (b₁ b₂ : Bool),
      (setDataField s v { triggerQuery := b₁, stateChanges := b₂ }).events
        = s.events ++ (if b₁ then [.request s._query] else [])
          ++ (if b₂ then [notifyEff s "dataField" s.dataField v] else []))
  ∧ (∀ (s : SBState) (v : JSVal) (b₁ b₂ : Bool),
      (setValueUpdate s v { triggerQuery := b₁, stateChanges := b₂ }).events
        = s.events ++ (if s.onValueChange then [.valueCb s.value v] else [])
          ++ (if b₁ then [.request s._query] else [])
          ++ (if b₂ then [notifyEff s "value" s.value v] else []))
  ∧ (∀ (s : SBState) (q : JSVal) (b₁ b₂ : Bool) (s' : SBState),
      setQuery s q { triggerQuery := b₁, stateChanges := b₂ } = .ok s' →
      s'.events = s.events ++ (if b₁ then [.request s'._query] else [])
        ++ (if b₂ then [notifyEff s "query" s._query s'._query] else []))
  ∧ (∀ (s : SBState) (q : JSVal) (b₁ b₂ : Bool) (s' : SBState),
      setSuggestionsQuery s q { triggerQuery := b₁, stateChanges := b₂ } = .ok s' →
      s'.events = s.events ++ (if b₁ then [.request s'._query] else [])
        ++ (if b₂ then [notifyEff s "suggestionsQuery"
              s._suggestionsQuery s'._suggestionsQuery] else []))
  ∧ (∀ (s : SBState) (v : JSVal) (b₁ b₂ : Bool),
      setResults s v { triggerQuery := b₁, stateChanges := b₂ }
        = setResults s v { triggerQuery := false, stateChanges := b₂ })
  ∧ (∀ (s : SBState) (v body : JSVal) (b₁ b₂ : Bool),
      Effect.request body ∈
        (setResults s v { triggerQuery := b₁, stateChanges := b₂ }).events
      ↔ Effect.request body ∈ s.events)
  ∧ (∀ (s : SBState) (v : JSVal) (b₁ b₂ : Bool),
      setSuggestions s v { triggerQuery := b₁, stateChanges := b₂ }
        = setSuggestions s v { triggerQuery := false, stateChanges := b₂ })
  ∧ (∀ (s : SBState) (v body : JSVal) (b₁ b₂ : Bool),
      Effect.request body ∈
        (setSuggestions s v { triggerQuery := b₁, stateChanges := b₂ }).events
      ↔ Effect.request body ∈ s.events) := by
  refine ⟨?_, ?_, ?_, ?_, ?_, ?_, ?_, ?_, ?_, ?_, ?_, ?_, ?_, ?_, ?_, ?_, ?_, ?_, ?_⟩
  · intro s n b₁ b₂
    refine ⟨rfl, ?_⟩
    cases b₁ <;> cases b₂ <;>
      simp [setSize, applyOptions, applyEffects, notifyEff, List.append_assoc]
  · intro s sub hmem hmatch
    simp only [notifyIds, List.mem_map]
    exact ⟨sub, List.mem_filter.mpr ⟨hmem, hmatch⟩, rfl⟩
  · intro s n body
    simp [setSize, applyOptions, applyEffects, List.mem_append]
  · intro s v b₁ b₂
    cases b₁ <;> cases b₂ <;>
      simp [setFrom, applyOptions, applyEffects, notifyEff, List.append_assoc]
  · intro s v b₁ b₂
    cases b₁ <;> cases b₂ <;>
      simp [setHeaders, applyOptions, applyEffects, notifyEff, List.append_assoc]
  · intro s v b₁ b₂
    cases b₁ <;> cases b₂ <;>
      simp [setFuzziness, applyOptions, applyEffects, notifyEff, List.append_assoc]
  · intro s v b₁ b₂
    cases b₁ <;> cases b₂ <;>
      simp [setIncludeFields, applyOptions, applyEffects, notifyEff, List.append_assoc]
  · intro s v b₁ b₂
    cases b₁ <;> cases b₂ <;>
      simp [setExcludeFields, applyOptions, applyEffects, notifyEff, List.append_assoc]
  · intro s v b₁ b₂
    cases b₁ <;> cases b₂ <;>
      simp [setSortBy, applyOptions, applyEffects, notifyEff, List.append_assoc]
  · intro s v b₁ b₂
    cases b₁ <;> cases b₂ <;>
      simp [setSortByField, applyOptions, applyEffects, notifyEff, List.append_assoc]
  · intro s v b₁ b₂
    cases b₁ <;> cases b₂ <;>
      simp [setNestedField, applyOptions, applyEffects, notifyEff, List.append_assoc]
  · intro s v b₁ b₂
    cases b₁ <;> cases b₂ <;>
      simp [setDataField, applyOptions, applyEffects, notifyEff, List.append_assoc]
  · intro s v b₁ b₂
    cases hcb : s.onValueChange <;> cases b₁ <;> cases b₂ <;>
      simp [setValueUpdate, applyOptions, applyEffects, notifyEff, hcb, List.append_assoc]
  · intro s q b₁ b₂ s' h
    obtain ⟨s₁, hqs, hs'⟩ := setQuery_ok h
    obtain ⟨fo, dq, -, -, hs₁⟩ := querySet_ok hqs
    subst hs'
    subst hs₁
    cases b₁ <;> cases b₂ <;>
      simp [applyOptions, applyEffects, notifyEff, List.append_assoc]
  · intro s q b₁ b₂ s' h
    obtain ⟨s₁, hqs, hs'⟩ := setSuggestionsQuery_ok h
    obtain ⟨dq, -, hs₁⟩ := suggestionsQuerySet_ok hqs
    subst hs'
    subst hs₁
    cases b₁ <;> cases b₂ <;>
      simp [applyOptions, applyEffects, notifyEff, List.append_assoc]
  · intro s v b₁ b₂
    rfl
  · intro s v body b₁ b₂
    cases h : truthy v with
    | false => simp [setResults, h]
    | true =>
      cases hcb : s.onResults <;> cases b₂ <;>
        simp [setResults, h, hcb, applyOptions, applyEffects, notifyEff, List.mem_append]
  · intro s v b₁ b₂
    rfl
  · intro s v body b₁ b₂
    cases h : truthy v with
    | false => simp [setSuggestions, h]
    | true =>
      cases hcb : s.onSuggestions <;> cases b₂ <;>
        simp [setSuggestions, h, hcb, applyOptions, applyEffects, notifyEff, List.mem_append]

/-- The state after running setQuery on exState with exQ1 and triggerQuery
false, stateChanges true. -/
def exS5q : SBState :=
  match setQuery exState exQ1 { triggerQuery := false, stateChanges := true } with
  | .ok s => s
  | .error _ => blankState

/-- Witness for the amended C5 at concrete states: the setSize call from
the claim behaves as stated with no request; setResults with triggerQuery
true equals the call with triggerQuery false and issues no request; and a
setQuery call with triggerQuery false emits only the notification. -/
theorem c5_setter_options_amended_witness :
    (setSize exState5 (.num 7) { triggerQuery := false, stateChanges := true }).size = .num 7
    ∧ (setSize exState5 (.num 7) { triggerQuery := false, stateChanges := true }).events
      = exState5.events ++ [.notify [1, 2] "size"
          (.obj [("size", .obj [("prev", .num 10), ("next", .num 7)])])]
    ∧ (2 : Nat) ∈ notifyIds exState5.subscribers "size"
    ∧ ¬ Effect.request exState5._query ∈
        (setSize exState5 (.num 7) { triggerQuery := false, stateChanges := true }).events
    ∧ setResults exState5 (.arr [.num 1]) { triggerQuery := true, stateChanges := true }
      = setResults exState5 (.arr [.num 1]) { triggerQuery := false, stateChanges := true }
    ∧ ¬ Effect.request exState5._query ∈
        (setResults exState5 (.arr [.num 1])
          { triggerQuery := true, stateChanges := true }).events
    ∧ setQuery exState exQ1 { triggerQuery := false, stateChanges := true } = .ok exS5q
    ∧ exS5q.events = [.notify [] "query"
        (.obj [("query", .obj [("prev", exState._query), ("next", exS5q._query)])])] := by
  obtain ⟨h1, h2, h3, h4, h5, h6, h7, h8, h9, h10, h11, h12, h13, h14, h15, h16,
    h17, h18, h19⟩ := c5_setter_options_amended
  have hq : setQuery exState exQ1 { triggerQuery := false, stateChanges := true }
      = .ok exS5q := rfl
  refine ⟨(h1 exState5 (.num 7) false true).1, ?_, ?_, ?_, ?_, ?_, hq, ?_⟩
  · exact ((h1 exState5 (.num 7) false true).2).trans rfl
  · exact h2 exState5 { id := 2, keys := some ["size"] } (by simp [exState5]) rfl
  · intro hmem
    exact absurd ((h3 exState5 (.num 7) exState5._query).mp hmem) (List.not_mem_nil _)
  · exact h16 exState5 (.arr [.num 1]) true true
  · intro hmem
    exact absurd ((h17 exState5 (.arr [.num 1]) exState5._query true true).mp hmem)
      (List.not_mem_nil _)
  · exact (h14 exState exQ1 false true exS5q hq).trans rfl

/-! ## Claim C3 -/

/-- C3: with a configured beforeValueChange hook, the synchronous setValue
call leaves the state untouched (the update is deferred), and when the
hook rejects only a console warning is appended: the value keeps its
previous content, no value callback, no state-change notification and no
request effect is produced, and the catch handler returns normally (the
embedding is a total function, mirroring that no exception reaches the
caller of setValue). -/
theorem c3_beforeValueChange_reject_no_mutation (s : SBState) (v : JSVal)
    (o : Options) (e : JSVal) (h : s.beforeValueChange = true) :
    setValue s v o = s
    ∧ (setValueHookRejected (setValue s v o) e).value = s.value
    ∧ (setValueHookRejected (setValue s v o) e).events
      = s.events ++ [.warn "beforeValueChange rejected the promise with " e]
    ∧ (∀ p n, Effect.valueCb p n ∈ (setValueHookRejected (setValue s v o) e).events
        → Effect.valueCb p n ∈ s.events)
    ∧ (∀ ids key ch, Effect.notify ids key ch ∈ (setValueHookRejected (setValue s v o) e).events
        → Effect.notify ids key ch ∈ s.events)
    ∧ (∀ b, Effect.request b ∈ (setValueHookRejected (setValue s v o) e).events
        → Effect.request b ∈ s.events) := by
  have hs : setValue s v o = s := by simp [setValue, h]
  rw [hs]
  refine ⟨rfl, rfl, rfl, ?_, ?_, ?_⟩
  · intro p n hmem
    simpa [setValueHookRejected, List.mem_append] using hmem
  · intro ids key ch hmem
    simpa [setValueHookRejected, List.mem_append] using hmem
  · intro b hmem
    simpa [setValueHookRejected, List.mem_append] using hmem

/-- A concrete state with a configured beforeValueChange hook and a
registered value callback. -/
def exState3 : SBState := { exState with beforeValueChange := true, onValueChange := true }

/-- Witness for C3 at a concrete state: the rejected hook leaves value
undefined and the event log holds exactly the warning. -/
theorem c3_beforeValueChange_reject_no_mutation_witness :
    setValue exState3 (.str "new") { triggerQuery := true, stateChanges := true } = exState3
    ∧ (setValueHookRejected
        (setValue exState3 (.str "new") { triggerQuery := true, stateChanges := true })
        (.str "nope")).value = .undefined
    ∧ (setValueHookRejected
        (setValue exState3 (.str "new") { triggerQuery := true, stateChanges := true })
        (.str "nope")).events
      = [.warn "beforeValueChange rejected the promise with " (.str "nope")] := by
  have h := c3_beforeValueChange_reject_no_mutation exState3 (.str "new")
    { triggerQuery := true, stateChanges := true } (.str "nope") rfl
  exact ⟨h.1, h.2.1.trans rfl, h.2.2.1.trans rfl⟩

/-! ## Claim C2 -/

/-- C2: when the parsed and transform-processed body owns an error
property and is truthy, the pipeline settles as a rejection even for a
success HTTP status (below 400); the triggerQuery continuation then
stores that body in the error property, emits the configured onError
callback (which receives the previous error, as _applyOptions passes
prev), publishes the change when stateChanges holds, and leaves results
untouched. -/
theorem c2_error_body_is_failure (s : SBState) (stCh : Bool) (status : Nat)
    (res transformed : JSVal) (ts : Int) (hdrs sid : JSVal)
    (hstatus : status < 400) (htr : truthy transformed = true)
    (herr : jsHasOwn transformed "error" = true) (hcb : s.onError = true) :
    fetchSettle status res transformed ts hdrs = .error transformed
    ∧ (triggerQueryResolve s stCh sid (fetchSettle status res transformed ts hdrs)).error
        = transformed
    ∧ (triggerQueryResolve s stCh sid (fetchSettle status res transformed ts hdrs)).results
        = s.results
    ∧ (triggerQueryResolve s stCh sid (fetchSettle status res transformed ts hdrs)).events
        = s.events ++ [.errorCb s.error]
          ++ (if stCh then [.notify (notifyIds s.subscribers "error") "error"
                (.obj [("error", .obj [("prev", s.error), ("next", transformed)])])]
              else []) := by
  have h5 : ¬ 500 ≤ status := by omega
  have h4 : ¬ 400 ≤ status := by omega
  have hset : fetchSettle status res transformed ts hdrs = .error transformed := by
    simp [fetchSettle, h5, h4, htr, herr]
  rw [hset]
  refine ⟨rfl, rfl, rfl, ?_⟩
  cases stCh <;>
    simp [triggerQueryResolve, setErrorS, applyOptions, applyEffects, hcb,
      List.append_assoc]

/-- A concrete state with a registered onError callback. -/
def exState2 : SBState := { exState with onError := true }

/-- The spec example body: an error member under HTTP 200. -/
def errBody : JSVal := .obj [("error", .obj [("reason", .str "x")])]

/-- Witness for C2: at HTTP 200 the concrete error body rejects, lands in
the error property, fires the error callback and notification, and the
results value stays the constructed one. -/
theorem c2_error_body_is_failure_witness :
    fetchSettle 200 (.obj [("status", .num 200)]) errBody 0 .undefined = .error errBody
    ∧ (triggerQueryResolve exState2 true .undefined
        (fetchSettle 200 (.obj [("status", .num 200)]) errBody 0 .undefined)).error = errBody
    ∧ (triggerQueryResolve exState2 true .undefined
        (fetchSettle 200 (.obj [("status", .num 200)]) errBody 0 .undefined)).results
      = resultsMake .undefined := by
  have h := c2_error_body_is_failure exState2 true 200 (.obj [("status", .num 200)])
    errBody 0 .undefined .undefined (by omega) rfl rfl rfl
  exact ⟨h.1, h.2.1, h.2.2.1.trans rfl⟩

/-! ## Claim C9 -/

/-- C9: the outgoing request carries the standing headers merged with the
analytics headers; a truthy prior search id puts X-Search-Id with that id
in the merged headers, else a truthy current value puts X-Search-Query
with that value; and at every key the analytics headers do not bind, the
merged headers agree with the standing headers. -/
theorem c9_analytics_headers (s : SBState) (body : JSVal) :
    jsLookup (requestOptions s body) "headers"
      = some (.obj (jsSpreadFields s.headers ++ analyticsHeaders s))
    ∧ (truthy s._searchId = true →
        jsLookupF (jsSpreadFields s.headers ++ analyticsHeaders s) "X-Search-Id"
          = some s._searchId)
    ∧ (truthy s._searchId = false → truthy s.value = true →
        jsLookupF (jsSpreadFields s.headers ++ analyticsHeaders s) "X-Search-Query"
          = some s.value)
    ∧ (∀ k, jsLookupF (analyticsHeaders s) k = none →
        jsLookupF (jsSpreadFields s.headers ++ analyticsHeaders s) k
          = jsLookupF (jsSpreadFields s.headers) k) := by
  refine ⟨rfl, ?_, ?_, ?_⟩
  · intro h
    rw [show analyticsHeaders s = [("X-Search-Id", s._searchId), ("X-Search-Query", s.value)]
        from by simp [analyticsHeaders, h]]
    exact jsLookupF_append_some _ rfl
  · intro h1 h2
    rw [show analyticsHeaders s = [("X-Search-Query", s.value)]
        from by simp [analyticsHeaders, h1, h2]]
    exact jsLookupF_append_some _ rfl
  · intro k hk
    exact jsLookupF_append_none _ hk

/-- A state holding a prior search session id and a current value. -/
def exState9a : SBState := { exState with _searchId := .str "abc", value := .str "phone" }

/-- A state with no prior search session id and a current value. -/
def exState9b : SBState := { exState with value := .str "phone" }

/-- Witness for C9 at concrete states: with a session id the merged
headers carry it under X-Search-Id; without one they carry the value under
X-Search-Query; the Accept header comes through the merge untouched. -/
theorem c9_analytics_headers_witness :
    jsLookupF (jsSpreadFields exState9a.headers ++ analyticsHeaders exState9a) "X-Search-Id"
      = some (.str "abc")
    ∧ jsLookupF (jsSpreadFields exState9b.headers ++ analyticsHeaders exState9b) "X-Search-Query"
      = some (.str "phone")
    ∧ jsLookupF (jsSpreadFields exState9a.headers ++ analyticsHeaders exState9a) "Accept"
      = jsLookupF (jsSpreadFields exState9a.headers) "Accept" := by
  refine ⟨?_, ?_, ?_⟩
  · exact ((c9_analytics_headers exState9a .undefined).2.1 rfl).trans rfl
  · exact ((c9_analytics_headers exState9b .undefined).2.2.1 rfl rfl).trans rfl
  · exact (c9_analytics_headers exState9a .undefined).2.2.2 "Accept" rfl

/-! ## Constructor skeleton lemmas -/

theorem construct_ok {c : Config} {s : SBState} (h : construct c = .ok s) :
    configChecks c = .ok ()
    ∧ ∃ s3,
      ((truthy c.query = true ∧ setQuery (preQueryState c) c.query
          { triggerQuery := true, stateChanges := false } = .ok s3)
        ∨ (truthy c.query = false ∧ updateQuery (preQueryState c) .undefined .undefined = .ok s3))
      ∧ ((truthy c.suggestionsQuery = true ∧ setSuggestionsQuery s3 c.query
          { triggerQuery := true, stateChanges := false } = .ok s)
        ∨ (truthy c.suggestionsQuery = false ∧ s = s3)) := by
  unfold construct at h
  obtain ⟨u, hcheck, h⟩ := bindOk h
  refine ⟨by cases u; exact hcheck, ?_⟩
  cases hq : truthy c.query with
  | true =>
    simp only [hq, if_true] at h
    obtain ⟨s3, h3, h4⟩ := bindOk h
    refine ⟨s3, Or.inl ⟨rfl, h3⟩, ?_⟩
    cases hsq : truthy c.suggestionsQuery with
    | true =>
      simp only [hsq, if_true] at h4
      exact Or.inl ⟨rfl, h4⟩
    | false =>
      simp only [hsq, if_false] at h4
      exact Or.inr ⟨rfl, (Except.ok.inj h4).symm⟩
  | false =>
    simp only [hq, if_false] at h
    obtain ⟨s3, h3, h4⟩ := bindOk h
    refine ⟨s3, Or.inr ⟨rfl, h3⟩, ?_⟩
    cases hsq : truthy c.suggestionsQuery with
    | true =>
      simp only [hsq, if_true] at h4
      exact Or.inl ⟨rfl, h4⟩
    | false =>
      simp only [hsq, if_false] at h4
      exact Or.inr ⟨rfl, (Except.ok.inj h4).symm⟩

theorem setValue_fields (s : SBState) (v : JSVal) (o : Options) :
    (setValue s v o).size = s.size ∧ (setValue s v o).fromV = s.fromV := by
  unfold setValue
  split <;> exact ⟨rfl, rfl⟩

theorem preQueryState_size (c : Config) :
    (preQueryState c).size = jsOr (toNumber c.size) (.num 10) := by
  unfold preQueryState postHeadersState
  split
  · rw [(setValue_fields _ _ _).1]
    split <;> rfl
  · split <;> rfl

theorem preQueryState_from (c : Config) :
    (preQueryState c).fromV = jsOr (toNumber c.fromV) (.num 0) := by
  unfold preQueryState postHeadersState
  split
  · rw [(setValue_fields _ _ _).2]
    split <;> rfl
  · split <;> rfl

theorem construct_size_from {c : Config} {s : SBState} (h : construct c = .ok s) :
    s.size = jsOr (toNumber c.size) (.num 10)
    ∧ s.fromV = jsOr (toNumber c.fromV) (.num 0) := by
  obtain ⟨-, s3, h3, h4⟩ := construct_ok h
  have hs3 : s3.size = (preQueryState c).size ∧ s3.fromV = (preQueryState c).fromV := by
    rcases h3 with ⟨-, hset⟩ | ⟨-, hupd⟩
    · obtain ⟨s₁, hqs, hs'⟩ := setQuery_ok hset
      obtain ⟨fo, dq, -, -, hs₁⟩ := querySet_ok hqs
      rw [hs', hs₁]
      exact ⟨rfl, rfl⟩
    · obtain ⟨fo, dq, -, -, hsu⟩ := updateQuery_ok hupd
      rw [hsu]
      exact ⟨rfl, rfl⟩
  have hs : s.size = s3.size ∧ s.fromV = s3.fromV := by
    rcases h4 with ⟨-, hset⟩ | ⟨-, heq⟩
    · obtain ⟨s₁, hqs, hs'⟩ := setSuggestionsQuery_ok hset
      obtain ⟨dq, -, hs₁⟩ := suggestionsQuerySet_ok hqs
      rw [hs', hs₁]
      exact ⟨rfl, rfl⟩
    · rw [heq]
      exact ⟨rfl, rfl⟩
  rw [hs.1, hs.2, hs3.1, hs3.2, preQueryState_size, preQueryState_from]
  exact ⟨rfl, rfl⟩

/-! ## Claim C4 -/

/-- Counterexample to C4 as stated: an empty dataField array is an empty
data-field specification, yet construction completes (an empty array is
truthy in JS, so the !dataField check does not fire). -/
theorem c4_empty_dataField_array_constructs :
    (construct { cfgEx with dataField := .arr [] }).isOk = true := rfl

/-- C4 amended: construction fails exactly when index, url or dataField is
falsy (missing or the empty string); an empty dataField array is truthy
and passes; when all three are truthy the three validation checks
succeed (construction can only fail later, for reasons outside these
checks). -/
theorem c4_construct_checks_amended (c : Config) :
    ((truthy c.index = false ∨ truthy c.url = false ∨ truthy c.dataField = false) →
      ∃ e, construct c = .error e)
    ∧ (truthy c.index = true → truthy c.url = true → truthy c.dataField = true →
      configChecks c = .ok ()) := by
  constructor
  · intro hdisj
    unfold construct
    cases h1 : truthy c.index with
    | false =>
      exact ⟨jsError "Please provide a valid index.",
        by simp [configChecks, h1, Bind.bind, Except.bind]⟩
    | true =>
      cases h2 : truthy c.url with
      | false =>
        exact ⟨jsError "Please provide a valid url.",
          by simp [configChecks, h1, h2, Bind.bind, Except.bind]⟩
      | true =>
        cases h3 : truthy c.dataField with
        | false =>
          exact ⟨jsError "Please provide a valid data field.",
            by simp [configChecks, h1, h2, h3, Bind.bind, Except.bind]⟩
        | true => simp [h1, h2, h3] at hdisj
  · intro h1 h2 h3
    simp [configChecks, h1, h2, h3]

/-- Witness for the amended C4: an empty index string fails construction,
and the fully supplied cfgEx passes the three checks. -/
theorem c4_construct_checks_amended_witness :
    (∃ e, construct { cfgEx with index := .str "" } = .error e)
    ∧ configChecks cfgEx = .ok () := by
  constructor
  · exact (c4_construct_checks_amended { cfgEx with index := .str "" }).1 (Or.inl rfl)
  · exact (c4_construct_checks_amended cfgEx).2 rfl rfl rfl

/-! ## Claim C8 -/

theorem toNumber_shape (v : JSVal) : isNumber (toNumber v) = true := by
  induction v using toNumber.induct <;> simp_all [toNumber, isNumber]

theorem jsOr_toNumber_num (v : JSVal) (d : Int) :
    ∃ n, jsOr (toNumber v) (.num d) = .num n := by
  have h := toNumber_shape v
  cases hw : toNumber v with
  | num n =>
    by_cases hn : n = 0
    · exact ⟨d, by simp [jsOr, truthy, hn]⟩
    · exact ⟨n, by simp [jsOr, truthy, hn]⟩
  | nan => exact ⟨d, rfl⟩
  | _ => rw [hw] at h; exact Bool.noConfusion h

/-- Counterexample to C8 as stated: setSize assigns the supplied value
without Number coercion, so after setSize with a string the size property
holds a string, not a number. -/
theorem c8_setSize_string_stays_string :
    isNumber (setSize exState (.str "20")
      { triggerQuery := false, stateChanges := false }).size = false := rfl

/-- C8 amended: size and from are coerced to numbers at construction, with
size defaulting to 10 and from to 0 when the supplied input is unset or
does not coerce to a number (the default also applies when the input
coerces to 0, since the source uses Number(x) with a falsy-or fallback);
the setters assign the supplied value as is, with no coercion and no
defaulting, so the property stays a number only when setters receive
numbers. -/
theorem c8_size_from_numbers_amended (c : Config) (s : SBState)
    (h : construct c = .ok s) :
    (∃ n, s.size = .num n) ∧ (∃ n, s.fromV = .num n)
    ∧ (c.size = .undefined → s.size = .num 10)
    ∧ (c.fromV = .undefined → s.fromV = .num 0)
    ∧ (toNumber c.size = .nan → s.size = .num 10)
    ∧ (toNumber c.fromV = .nan → s.fromV = .num 0)
    ∧ (∀ v o, (setSize s v o).size = v)
    ∧ (∀ v o, (setFrom s v o).fromV = v) := by
  obtain ⟨hsize, hfrom⟩ := construct_size_from h
  refine ⟨?_, ?_, ?_, ?_, ?_, ?_, fun v o => rfl, fun v o => rfl⟩
  · rw [hsize]; exact jsOr_toNumber_num c.size 10
  · rw [hfrom]; exact jsOr_toNumber_num c.fromV 0
  · intro hu; rw [hsize, hu]; rfl
  · intro hu; rw [hfrom, hu]; rfl
  · intro hn; rw [hsize, hn]; rfl
  · intro hn; rw [hfrom, hn]; rfl

/-- Witness for the amended C8 at cfgEx: the constructed size and from are
the numeric defaults, and a setter stores a string verbatim. -/
theorem c8_size_from_numbers_amended_witness :
    (∃ n, exState.size = .num n)
    ∧ exState.size = .num 10 ∧ exState.fromV = .num 0
    ∧ (setSize exState (.str "20")
        { triggerQuery := false, stateChanges := false }).size = .str "20" := by
  have h := c8_size_from_numbers_amended cfgEx exState rfl
  exact ⟨h.1, h.2.2.1 rfl, h.2.2.2.1 rfl, h.2.2.2.2.2.2.1 (.str "20") _⟩

/-! ## Claim C10 -/

/-- C10: when a suggestionsQuery is supplied at construction, the stored
suggestions query is computed from the query configuration argument, not
from suggestionsQuery: two constructions differing only in their (truthy)
suggestionsQuery values produce identical results, and with query absent
the supplied suggestionsQuery is ignored, the suggestions query falling
back to the default query of the current value or match_all, with the
fixed size 10 option. -/
theorem c10_suggestions_query_ignores_argument :
    (∀ (c : Config) (v₁ v₂ : JSVal), truthy v₁ = true → truthy v₂ = true →
      construct { c with suggestionsQuery := v₁ }
        = construct { c with suggestionsQuery := v₂ })
    ∧ (∀ (c : Config) (s : SBState), c.query = .undefined →
        truthy c.suggestionsQuery = true → construct c = .ok s →
        ∃ dq, defaultQuery s.value (dqOptionsOf s) = .ok dq ∧
          s._suggestionsQuery
            = .obj [("query", jsOr dq matchAllQuery), ("size", .num 10)]) := by
  constructor
  · intro c v₁ v₂ h₁ h₂
    have e₁ : truthy ({ c with suggestionsQuery := v₁ } : Config).suggestionsQuery = true := h₁
    have e₂ : truthy ({ c with suggestionsQuery := v₂ } : Config).suggestionsQuery = true := h₂
    unfold construct
    rw [e₁, e₂]
    rfl
  · intro c s hq hsq h
    obtain ⟨-, s3, -, h4⟩ := construct_ok h
    rcases h4 with ⟨-, hset⟩ | ⟨hfalse, -⟩
    · rw [hq] at hset
      obtain ⟨s₁, hqs, hs'⟩ := setSuggestionsQuery_ok hset
      obtain ⟨dq, hdq, hs₁⟩ := suggestionsQuerySet_ok hqs
      refine ⟨dq, ?_, ?_⟩
      · rw [hs', hs₁]
        exact hdq
      · rw [hs', hs₁]
        rfl
    · rw [hfalse] at hsq
      exact Bool.noConfusion hsq

/-- A configuration that supplies a suggestionsQuery but no query. -/
def cfg10 : Config := { cfgEx with suggestionsQuery := .obj [("custom", .bool true)] }

/-- The state constructed from cfg10. -/
def exState10 : SBState :=
  match construct cfg10 with
  | .ok s => s
  | .error _ => blankState

/-- Witness for C10: two different truthy suggestionsQuery values give the
same construction, and with query absent the stored suggestions query is
the default-or-match_all form with size 10, ignoring the supplied value. -/
theorem c10_suggestions_query_ignores_argument_witness :
    construct { cfgEx with suggestionsQuery := .obj [("custom", .bool true)] }
      = construct { cfgEx with suggestionsQuery := .str "ignored" }
    ∧ ∃ dq, defaultQuery exState10.value (dqOptionsOf exState10) = .ok dq ∧
        exState10._suggestionsQuery
          = .obj [("query", jsOr dq matchAllQuery), ("size", .num 10)] := by
  constructor
  · exact c10_suggestions_query_ignores_argument.1 cfgEx
      (.obj [("custom", .bool true)]) (.str "ignored") rfl rfl
  · exact c10_suggestions_query_ignores_argument.2 cfg10 exState10 rfl rfl rfl
